import Mathlib

/-!
Shallow embedding of the hazelnats micro-service framework
(src/hazelnats.py): service registry, declaration decorators, the
endpoint dispatcher's argument/result conversion, the singleton service
lifecycle and the client run/teardown sequence.

Python byte strings are lists of byte values, Python dicts are
insertion-ordered association lists, mutable objects are threaded as
explicit state.  The external codecs the dispatcher calls
(bytes.decode "utf-8", str.encode "utf-8", json.loads, json.dumps) are
modelled executably; the JSON model covers integer numerics, which is
what the framework's samples and tests exercise.
-/

set_option autoImplicit false

namespace Hazelnats

/-- Python byte strings: lists of byte values. -/
abbrev Bytes := List Nat

/-! ### Python dict model: insertion-ordered association lists -/

/-- Lookup in a Python dict (first — unique — matching key). -/
def dictGet {α : Type} : List (String × α) → String → Option α
  | [], _ => Option.none
  | (k2, v) :: rest, k => if k2 = k then some v else dictGet rest k

/-- Assignment `d[k] = v` on a Python dict: updates an existing key in
place, otherwise appends the new binding at the end. -/
def dictSet {α : Type} : List (String × α) → String → α → List (String × α)
  | [], k, v => [(k, v)]
  | (k2, v2) :: rest, k, v =>
    if k2 = k then (k2, v) :: rest else (k2, v2) :: dictSet rest k v

/-- In-place mutation of the value stored under an existing key (models a
Python attribute/entry assignment through a shared reference). -/
def dictUpdate {α : Type} : List (String × α) → String → (α → α) → List (String × α)
  | [], _, _ => []
  | (k2, v2) :: rest, k, f =>
    if k2 = k then (k2, f v2) :: rest else (k2, v2) :: dictUpdate rest k f

/-- Number of entries stored under a key (0 or 1 for a well-formed dict). -/
def dictCount {α : Type} (m : List (String × α)) (k : String) : Nat :=
  (m.filter (fun p => p.1 = k)).length

/-! ### UTF-8 codec (model of bytes.decode "utf-8" / str.encode "utf-8") -/

/-- UTF-8 continuation byte test. -/
def isCont (b : Nat) : Bool := 128 ≤ b && b < 192

/-- Decode a UTF-8 byte list to a codepoint list; `Option.none` on invalid
input (truncated sequences, bad lead/continuation bytes, overlong forms,
surrogates, out-of-range codepoints).  Fuel-indexed; one byte consumes at
least one fuel. -/
def utf8DecodeAux : Nat → List Nat → Option (List Nat)
  | _, [] => some []
  | 0, _ :: _ => Option.none
  | fuel + 1, b0 :: rest =>
    if b0 < 128 then
      (utf8DecodeAux fuel rest).map (fun cs => b0 :: cs)
    else if b0 < 194 then Option.none
    else if b0 < 224 then
      match rest with
      | b1 :: rest2 =>
        if isCont b1 then
          (utf8DecodeAux fuel rest2).map (fun cs => ((b0 - 192) * 64 + (b1 - 128)) :: cs)
        else Option.none
      | [] => Option.none
    else if b0 < 240 then
      match rest with
      | b1 :: b2 :: rest3 =>
        if isCont b1 && isCont b2 then
          let cp := (b0 - 224) * 4096 + (b1 - 128) * 64 + (b2 - 128)
          if cp < 2048 || (55296 ≤ cp && cp < 57344) then Option.none
          else (utf8DecodeAux fuel rest3).map (fun cs => cp :: cs)
        else Option.none
      | _ => Option.none
    else if b0 < 245 then
      match rest with
      | b1 :: b2 :: b3 :: rest4 =>
        if isCont b1 && isCont b2 && isCont b3 then
          let cp := (b0 - 240) * 262144 + (b1 - 128) * 4096 + (b2 - 128) * 64 + (b3 - 128)
          if cp < 65536 || 1114112 ≤ cp then Option.none
          else (utf8DecodeAux fuel rest4).map (fun cs => cp :: cs)
        else Option.none
      | _ => Option.none
    else Option.none

/-- Model of Python `payload.decode("utf-8")`: some decoded text, or
`Option.none` when the byte list is not valid UTF-8 (Python raises
`UnicodeDecodeError`, surfaced by the spec as `PayloadDecodingError`). -/
def pyDecodeUtf8 (bs : Bytes) : Option String :=
  (utf8DecodeAux bs.length bs).map (fun cs => String.mk (cs.map Char.ofNat))

/-- UTF-8 encoding of one codepoint. -/
def utf8EncodeChar (c : Nat) : List Nat :=
  if c < 128 then [c]
  else if c < 2048 then [192 + c / 64, 128 + c % 64]
  else if c < 65536 then [224 + c / 4096, 128 + (c / 64) % 64, 128 + c % 64]
  else [240 + c / 262144, 128 + (c / 4096) % 64, 128 + (c / 64) % 64, 128 + c % 64]

/-- Model of Python `s.encode("utf-8")`. -/
def utf8Encode (s : String) : Bytes :=
  (s.data.map (fun ch => utf8EncodeChar ch.toNat)).flatten

/-! ### JSON documents (model of the external json module) -/

/-- JSON documents as produced by json.loads (numerics restricted to
integers in this model). -/
inductive JsonValue : Type
  | null : JsonValue
  | bool (b : Bool) : JsonValue
  | num (n : Int) : JsonValue
  | str (s : String) : JsonValue
  | arr (elems : List JsonValue) : JsonValue
  | obj (fields : List (String × JsonValue)) : JsonValue

/-- Skip JSON whitespace. -/
def skipWs : List Char → List Char
  | c :: rest =>
    if c = ' ' || c = '\t' || c = '\n' || c = '\r' then skipWs rest else c :: rest
  | [] => []

/-- Parse the body of a JSON string literal (after the opening quote),
returning the text and the input after the closing quote. -/
def jparseStrBody : List Char → Option (String × List Char)
  | [] => Option.none
  | '"' :: rest => some ("", rest)
  | '\\' :: c :: rest =>
    let esc : Option Char :=
      if c = '"' then some '"'
      else if c = '\\' then some '\\'
      else if c = '/' then some '/'
      else if c = 'n' then some '\n'
      else if c = 't' then some '\t'
      else if c = 'r' then some '\r'
      else Option.none
    match esc with
    | Option.none => Option.none
    | some e => (jparseStrBody rest).map (fun p => (String.mk (e :: p.1.data), p.2))
  | c :: rest => (jparseStrBody rest).map (fun p => (String.mk (c :: p.1.data), p.2))

/-- Accumulate decimal digits. -/
def digitsToNat (acc : Nat) : List Char → Nat
  | [] => acc
  | c :: rest => digitsToNat (acc * 10 + (c.toNat - 48)) rest

/-- Parse a JSON integer literal. -/
def jparseNum (cs : List Char) : Option (Int × List Char) :=
  match cs with
  | '-' :: rest =>
    let ds := rest.takeWhile Char.isDigit
    if ds.isEmpty then Option.none
    else some (-(digitsToNat 0 ds : Int), rest.drop ds.length)
  | _ =>
    let ds := cs.takeWhile Char.isDigit
    if ds.isEmpty then Option.none
    else some ((digitsToNat 0 ds : Int), cs.drop ds.length)

/-- Opening brace character (written by codepoint). -/
def lbrace : Char := Char.ofNat 123

/-- Closing brace character (written by codepoint). -/
def rbrace : Char := Char.ofNat 125

mutual

/-- Recursive-descent JSON value parser, fuel-indexed. -/
def jparseVal : Nat → List Char → Option (JsonValue × List Char)
  | 0, _ => Option.none
  | fuel + 1, cs =>
    match skipWs cs with
    | [] => Option.none
    | 'n' :: 'u' :: 'l' :: 'l' :: rest => some (JsonValue.null, rest)
    | 't' :: 'r' :: 'u' :: 'e' :: rest => some (JsonValue.bool true, rest)
    | 'f' :: 'a' :: 'l' :: 's' :: 'e' :: rest => some (JsonValue.bool false, rest)
    | '"' :: rest => (jparseStrBody rest).map (fun p => (JsonValue.str p.1, p.2))
    | '[' :: rest =>
      (match skipWs rest with
       | ']' :: rest2 => some (JsonValue.arr [], rest2)
       | _ => (jparseElems fuel rest).map (fun p => (JsonValue.arr p.1, p.2)))
    | c :: rest =>
      if c = lbrace then
        match skipWs rest with
        | c2 :: rest2 =>
          if c2 = rbrace then some (JsonValue.obj [], rest2)
          else (jparseFields fuel (c2 :: rest2)).map (fun p => (JsonValue.obj p.1, p.2))
        | [] => Option.none
      else
        (jparseNum (c :: rest)).map (fun p => (JsonValue.num p.1, p.2))

/-- Parse the comma-separated elements of a non-empty JSON array. -/
def jparseElems : Nat → List Char → Option (List JsonValue × List Char)
  | 0, _ => Option.none
  | fuel + 1, cs =>
    match jparseVal fuel cs with
    | Option.none => Option.none
    | some (v, rest) =>
      match skipWs rest with
      | ',' :: rest2 => (jparseElems fuel rest2).map (fun p => (v :: p.1, p.2))
      | ']' :: rest2 => some ([v], rest2)
      | _ => Option.none

/-- Parse the comma-separated fields of a non-empty JSON object. -/
def jparseFields : Nat → List Char → Option (List (String × JsonValue) × List Char)
  | 0, _ => Option.none
  | fuel + 1, cs =>
    match skipWs cs with
    | '"' :: rest =>
      (match jparseStrBody rest with
       | Option.none => Option.none
       | some (key, rest2) =>
         match skipWs rest2 with
         | ':' :: rest3 =>
           (match jparseVal fuel rest3 with
            | Option.none => Option.none
            | some (v, rest4) =>
              match skipWs rest4 with
              | ',' :: rest5 => (jparseFields fuel rest5).map (fun p => ((key, v) :: p.1, p.2))
              | c :: rest5 => if c = rbrace then some ([(key, v)], rest5) else Option.none
              | [] => Option.none)
         | _ => Option.none)
    | _ => Option.none

end

/-- Model of Python `json.loads` on text: parse one JSON document followed
only by whitespace; `Option.none` on malformed input (Python raises
`json.JSONDecodeError`, surfaced by the spec as `PayloadDecodingError`). -/
def jsonLoadsStr (s : String) : Option JsonValue :=
  match jparseVal (2 * s.length + 2) s.data with
  | Option.none => Option.none
  | some (v, rest) => if (skipWs rest).isEmpty then some v else Option.none

/-- Model of Python `json.loads` on a byte payload: the bytes are decoded
as UTF-8 first, then parsed. -/
def jsonLoads (bs : Bytes) : Option JsonValue :=
  (pyDecodeUtf8 bs).bind jsonLoadsStr

/-! ### Python runtime values returned by handlers -/

/-- Python values a handler may return, as distinguished by the
isinstance chain in `EndpointDefinition._convert_result` (numerics
restricted to integers in this model; `list`/`dict` are the structured
values handed to json.dumps). -/
inductive PyValue : Type
  | none : PyValue
  | bool (b : Bool) : PyValue
  | int (n : Int) : PyValue
  | str (s : String) : PyValue
  | bytes (bs : Bytes) : PyValue
  | bytearray (bs : Bytes) : PyValue
  | list (elems : List PyValue) : PyValue
  | dict (fields : List (String × PyValue)) : PyValue

/-- Escape one character for a JSON string literal. -/
def jsonEscChar (c : Char) : List Char :=
  if c = '"' then ['\\', '"']
  else if c = '\\' then ['\\', '\\']
  else [c]

/-- Serialize a JSON string literal (quotes included). -/
def jsonQuote (s : String) : String :=
  String.mk ('"' :: ((s.data.map jsonEscChar).flatten ++ ['"']))

mutual

/-- Model of Python `json.dumps` (default separators: items joined by
", ", keys and values joined by ": ").  Byte strings are not JSON
serializable: Python raises `TypeError`, surfaced by the spec as
`ResultEncodingError`; the model returns `Option.none`. -/
def jsonDumpsV : PyValue → Option String
  | PyValue.none => some "null"
  | PyValue.bool b => some (if b then "true" else "false")
  | PyValue.int n => some (toString n)
  | PyValue.str s => some (jsonQuote s)
  | PyValue.bytes _ => Option.none
  | PyValue.bytearray _ => Option.none
  | PyValue.list xs => (jsonDumpsElems xs).map (fun body => "[" ++ body ++ "]")
  | PyValue.dict fs =>
    (jsonDumpsFields fs).map (fun body => "\x7b" ++ body ++ "\x7d")

/-- Serialize list elements, joined by ", ". -/
def jsonDumpsElems : List PyValue → Option String
  | [] => some ""
  | [x] => jsonDumpsV x
  | x :: y :: rest =>
    match jsonDumpsV x, jsonDumpsElems (y :: rest) with
    | some s1, some s2 => some (s1 ++ ", " ++ s2)
    | _, _ => Option.none

/-- Serialize dict fields as quoted key, ": ", value, joined by ", ". -/
def jsonDumpsFields : List (String × PyValue) → Option String
  | [] => some ""
  | [(k, v)] => (jsonDumpsV v).map (fun s => jsonQuote k ++ ": " ++ s)
  | (k, v) :: f :: rest =>
    match jsonDumpsV v, jsonDumpsFields (f :: rest) with
    | some s1, some s2 => some (jsonQuote k ++ ": " ++ s1 ++ ", " ++ s2)
    | _, _ => Option.none

end

/-- Model of Python `str(...)` on the scalar results the dispatcher
stringifies (`int`, `float`, `bool`; integers in this model).  Note that
Python prints booleans capitalized. -/
def pyStrScalar : PyValue → Option String
  | PyValue.int n => some (toString n)
  | PyValue.bool b => some (if b then "True" else "False")
  | _ => Option.none

/-! ### Dispatch errors (spec taxonomy for the exceptions that propagate
out of the dispatcher: UnicodeDecodeError / json.JSONDecodeError on the
inbound side, json.dumps TypeError on the outbound side) -/

/-- Per-request dispatch failures. -/
inductive DispatchError : Type
  | payloadDecodingError : DispatchError
  | resultEncodingError : DispatchError
deriving DecidableEq

/-! ### Result conversion (EndpointDefinition._convert_result) -/

/-- Model of `EndpointDefinition._convert_result`: `Option.none` in the
result position means no `req.respond` call is made at all; `some bs`
means `req.respond(bs)` is called with exactly those bytes. -/
def convert_result : PyValue → Except DispatchError (Option Bytes)
  | PyValue.none => Except.ok Option.none
  | PyValue.bytes bs => Except.ok (some bs)
  | PyValue.bytearray bs => Except.ok (some bs)
  | PyValue.str s => Except.ok (some (utf8Encode s))
  | PyValue.int n => Except.ok (some (utf8Encode (toString n)))
  | PyValue.bool b => Except.ok (some (utf8Encode (if b then "True" else "False")))
  | v =>
    match jsonDumpsV v with
    | some s => Except.ok (some (utf8Encode s))
    | Option.none => Except.error DispatchError.resultEncodingError

/-! ### Handler signatures (inspect.getfullargspec) and argument
conversion (EndpointDefinition._convert_to_args) -/

/-- The Python type objects the dispatcher compares annotations against;
`other` stands for any further type object (numeric types, user-defined
model classes, ...), which matches none of the dispatcher's branches. -/
inductive PyType : Type
  | bytes : PyType
  | bytearray : PyType
  | str : PyType
  | dict : PyType
  | request : PyType
  | other (typename : String) : PyType
deriving DecidableEq

/-- Cached signature data of a handler, as delivered by
`inspect.getfullargspec`: positional parameter names in order, and the
annotation mapping (absence of a key models an unannotated parameter). -/
structure ArgSpec : Type where
  args : List String
  anns : List (String × PyType)
deriving DecidableEq

/-- Lookup of `spec.annotations.get(name)`. -/
def getAnn (spec : ArgSpec) (name : String) : Option PyType :=
  dictGet spec.anns name

/-- Values the dispatcher passes positionally to the handler. -/
inductive HandlerArg : Type
  | request : HandlerArg
  | bytes (bs : Bytes) : HandlerArg
  | bytearray (bs : Bytes) : HandlerArg
  | str (s : String) : HandlerArg
  | json (v : JsonValue) : HandlerArg

/-- The converted call shape `(has_self, args, kwargs)` returned by
`_convert_to_args`. -/
structure ConvertedCall : Type where
  has_self : Bool
  args : List HandlerArg
  kwargs : List (String × JsonValue)

/-- Whether the handler's first declared parameter is the implicit
receiver `self` (lines 120-122). -/
def specHasSelf (spec : ArgSpec) : Bool :=
  match spec.args with
  | a :: _ => a = "self"
  | [] => false

/-- Parameter names with the implicit receiver dropped (line 125). -/
def handlerArgsNoSelf (spec : ArgSpec) : List String :=
  if specHasSelf spec then spec.args.tail else spec.args

/-- Whether the first remaining parameter is annotated with the
transport's request-handle type (lines 127-132). -/
def leadingRequest (spec : ArgSpec) : Bool :=
  match handlerArgsNoSelf spec with
  | a :: _ => getAnn spec a = some PyType.request
  | [] => false

/-- Payload parameter names: after dropping the implicit receiver and a
leading raw-request parameter. -/
def remainingArgs (spec : ArgSpec) : List String :=
  if leadingRequest spec then (handlerArgsNoSelf spec).tail else handlerArgsNoSelf spec

/-- Positional arguments already filled before payload conversion: the
request object when a leading raw-request parameter was declared. -/
def leadingArgs (spec : ArgSpec) : List HandlerArg :=
  if leadingRequest spec then [HandlerArg.request] else []

/-- Model of `EndpointDefinition._convert_to_args` (lines 113-160): the
payload argument stands for `req.data()`.  For two or more payload
parameters the code stores `json.loads(payload.decode("utf-8"))` as the
keyword dict; passing a non-object document fails when `**kwargs` is
expanded at call time, which this model reports as the same per-request
decoding failure. -/
def convert_to_args (spec : ArgSpec) (payload : Bytes) :
    Except DispatchError ConvertedCall :=
  match remainingArgs spec with
  | [] => Except.ok ⟨specHasSelf spec, leadingArgs spec, []⟩
  | [a] =>
    match getAnn spec a with
    | Option.none | some PyType.bytes =>
      Except.ok ⟨specHasSelf spec, leadingArgs spec ++ [HandlerArg.bytes payload], []⟩
    | some PyType.bytearray =>
      Except.ok ⟨specHasSelf spec, leadingArgs spec ++ [HandlerArg.bytearray payload], []⟩
    | some PyType.str =>
      (match pyDecodeUtf8 payload with
       | some s => Except.ok ⟨specHasSelf spec, leadingArgs spec ++ [HandlerArg.str s], []⟩
       | Option.none => Except.error DispatchError.payloadDecodingError)
    | some PyType.dict =>
      (match jsonLoads payload with
       | some v => Except.ok ⟨specHasSelf spec, leadingArgs spec ++ [HandlerArg.json v], []⟩
       | Option.none => Except.error DispatchError.payloadDecodingError)
    | some PyType.request | some (PyType.other _) =>
      Except.ok ⟨specHasSelf spec, leadingArgs spec ++ [HandlerArg.bytes payload], []⟩
  | _ :: _ :: _ =>
    match jsonLoads payload with
    | some (JsonValue.obj fields) => Except.ok ⟨specHasSelf spec, leadingArgs spec, fields⟩
    | some _ => Except.error DispatchError.payloadDecodingError
    | Option.none => Except.error DispatchError.payloadDecodingError

/-! ### Service implementation objects -/

/-- Attribute state of one Python object (the mutable instance of a
service class), threaded explicitly. -/
abbrev ObjState := List (String × PyValue)

/-- A service implementation class: `init` is the attribute state its
zero-argument constructor produces. -/
structure PyClass : Type where
  init : ObjState

/-- Semantic model of one handler coroutine: given the target object's
attribute state and the converted positional/keyword arguments, it
returns the target's updated attribute state and the returned value.
The cached signature is the data `inspect.getfullargspec` reports for
it. -/
structure Handler : Type where
  spec : ArgSpec
  run : ObjState → List HandlerArg → List (String × JsonValue) → ObjState × PyValue

/-! ### Declaration-time errors (spec taxonomy for the exceptions the
registration layer raises) -/

/-- Fatal errors raised while services/endpoints are being declared. -/
inductive DeclError : Type
  | invalidHandlerError : DeclError
  | missingServiceContextError : DeclError
  | duplicateEndpointError : DeclError
deriving DecidableEq

/-! ### EndpointDefinition and ServiceDefinition -/

/-- One declared endpoint: name, handler, and the signature cached by
`_inspect_handler` at construction time (never re-inspected). -/
structure EndpointDefinition : Type where
  name : String
  handler : Handler
  spec_cache : ArgSpec

/-- Constructor of `EndpointDefinition`: rejects a missing handler
("handler cannot be None", surfaced by the spec as
`InvalidHandlerError`), then caches the inspected signature. -/
def mkEndpointDefinition (name : String) (handler : Option Handler) :
    Except DeclError EndpointDefinition :=
  match handler with
  | Option.none => Except.error DeclError.invalidHandlerError
  | some h => Except.ok ⟨name, h, h.spec⟩

/-- One declared service: metadata, endpoint catalog, implementing class
and the optional resolved singleton (represented by its attribute
state). -/
structure ServiceDefinition : Type where
  name : String
  version : String
  description : String
  endpoints : List (String × EndpointDefinition)
  service_cls : Option PyClass
  service_inst : Option ObjState

/-- Model of `ServiceDefinition.__init__`. -/
def ServiceDefinition.init (name version description : String) : ServiceDefinition :=
  ⟨name, version, description, [], Option.none, Option.none⟩

/-- Model of `ServiceDefinition.add_endpoint`. -/
def add_endpoint (sd : ServiceDefinition) (name : String) (handler : Option Handler) :
    Except DeclError (ServiceDefinition × EndpointDefinition) :=
  match mkEndpointDefinition name handler with
  | Except.error e => Except.error e
  | Except.ok ep =>
    Except.ok ({ sd with endpoints := dictSet sd.endpoints name ep }, ep)

/-- Model of `ServiceDefinition.get_endpoint`. -/
def get_endpoint (sd : ServiceDefinition) (name : String) : Option EndpointDefinition :=
  dictGet sd.endpoints name

/-- Model of `ServiceDefinition.resolve_service`: no-op when the
singleton is already set, otherwise instantiates the implementing class
with no constructor arguments and caches the instance.  `Option.none`
models the `TypeError` of calling a never-assigned implementing class. -/
def resolve_service (sd : ServiceDefinition) : Option ServiceDefinition :=
  match sd.service_inst with
  | some _ => some sd
  | Option.none =>
    match sd.service_cls with
    | some cls => some { sd with service_inst := some cls.init }
    | Option.none => Option.none

/-! ### Message dispatch (EndpointDefinition.message_handler) -/

/-- Model of `EndpointDefinition.message_handler`: converts the inbound
payload to arguments, invokes the handler against the resolved singleton
(threading the instance's attribute state back into the definition, so
mutations persist), and converts the returned value into the optional
response bytes.  When the singleton is not resolved the code targets the
bare class object; class-level attribute state is not modelled and such
an invocation leaves the definition unchanged. -/
def message_handler (sd : ServiceDefinition) (ep : EndpointDefinition) (payload : Bytes) :
    Except DispatchError (ServiceDefinition × Option Bytes) :=
  match convert_to_args ep.spec_cache payload with
  | Except.error e => Except.error e
  | Except.ok call =>
    if call.has_self then
      match sd.service_inst with
      | some st =>
        let out := ep.handler.run st call.args call.kwargs
        (match convert_result out.2 with
         | Except.ok resp => Except.ok ({ sd with service_inst := some out.1 }, resp)
         | Except.error e => Except.error e)
      | Option.none =>
        let out := ep.handler.run [] call.args call.kwargs
        (match convert_result out.2 with
         | Except.ok resp => Except.ok (sd, resp)
         | Except.error e => Except.error e)
    else
      let out := ep.handler.run [] call.args call.kwargs
      match convert_result out.2 with
      | Except.ok resp => Except.ok (sd, resp)
      | Except.error e => Except.error e

/-! ### ServiceRegistry and the declaration decorators -/

/-- The process-wide registry, passed explicitly.  The transient current
service is stored by its (unique) name, which models the Python object
reference into the same catalog. -/
structure ServiceRegistry : Type where
  services : List (String × ServiceDefinition)
  current_service : Option String

/-- Model of `ServiceRegistry.add_service`. -/
def add_service (reg : ServiceRegistry) (sd : ServiceDefinition) : ServiceRegistry :=
  { reg with services := dictSet reg.services sd.name sd }

/-- Model of `ServiceRegistry.get_service`. -/
def get_service (reg : ServiceRegistry) (name : String) : Option ServiceDefinition :=
  dictGet reg.services name

/-- Model of `ServiceRegistry.set_current_service`. -/
def set_current_service (reg : ServiceRegistry) (name : Option String) : ServiceRegistry :=
  { reg with current_service := name }

/-- Model of the `service(name, version, description)` decorator factory
call itself: reuse the existing definition when the name is already
registered (the call's fields are ignored), otherwise create and store a
new definition; either way mark it as the current service. -/
def service (reg : ServiceRegistry) (name version description : String) : ServiceRegistry :=
  match get_service reg name with
  | some _ => set_current_service reg (some name)
  | Option.none =>
    set_current_service (add_service reg (ServiceDefinition.init name version description))
      (some name)

/-- Model of the decorator returned by `service(...)` being applied to
the class: assigns `service_def.service_cls = cls` on the shared
definition. -/
def serviceDecorator (reg : ServiceRegistry) (name : String) (cls : PyClass) :
    ServiceRegistry :=
  { reg with
    services := dictUpdate reg.services name (fun sd => { sd with service_cls := some cls }) }

/-- A complete decorated service declaration: the factory call followed
immediately by the decorator application, as decorator syntax performs
it. -/
def serviceDecl (reg : ServiceRegistry) (name version description : String) (cls : PyClass) :
    ServiceRegistry :=
  serviceDecorator (service reg name version description) name cls

/-- Model of the `endpoint` decorator applied to a handler function:
requires a current service, derives the endpoint name (explicit name
when given and non-falsy, else the function's own name), rejects a
duplicate name on the current service, and otherwise stores the new
endpoint on it.  Errors leave the registry untouched (the exception
propagates before any mutation). -/
def endpointDecl (reg : ServiceRegistry) (explicitName : Option String)
    (funcName : String) (func : Option Handler) : Except DeclError ServiceRegistry :=
  match reg.current_service with
  | Option.none => Except.error DeclError.missingServiceContextError
  | some svc =>
    match get_service reg svc with
    | Option.none => Except.error DeclError.missingServiceContextError
    | some sd =>
      let epName := match explicitName with
        | Option.none => funcName
        | some n => if n = "" then funcName else n
      match get_endpoint sd epName with
      | some _ => Except.error DeclError.duplicateEndpointError
      | Option.none =>
        match add_endpoint sd epName func with
        | Except.error e => Except.error e
        | Except.ok (sd2, _) =>
          Except.ok { reg with services := dictSet reg.services svc sd2 }

/-! ### ClientBuilder: server address normalization -/

/-- Model of Python `s.split(",")` on a character list: always returns at
least one (possibly empty) piece. -/
def pySplitComma : List Char → List (List Char)
  | [] => [[]]
  | c :: rest =>
    let r := pySplitComma rest
    if c = ',' then [] :: r
    else
      match r with
      | h :: t => (c :: h) :: t
      | [] => [[c]]

/-- The `servers` argument of `ClientBuilder.__init__`: omitted (Python
default value), a string, or a list of strings. -/
inductive ServersArg : Type
  | omitted : ServersArg
  | str (s : List Char) : ServersArg
  | list (xs : List (List Char)) : ServersArg

/-- The default servers value `["nats://localhost:4222"]`. -/
def defaultServers : List (List Char) := ["nats://localhost:4222".data]

/-- Model of `ClientBuilder.__init__`: the stored `_servers` list.  A
string argument is split on commas; a list argument is stored as-is; the
default applies only when the argument is omitted. -/
def clientBuilderServers : ServersArg → List (List Char)
  | ServersArg.omitted => defaultServers
  | ServersArg.str s => pySplitComma s
  | ServersArg.list xs => xs

/-! ### ClientBuilder.run and the exit-stack teardown order -/

/-- Observable events of one `run` invocation. -/
inductive RunEvent : Type
  | connect (servers : List (List Char)) : RunEvent
  | serviceStarted (name : String) : RunEvent
  | quitWait : RunEvent
  | serviceStopped (name : String) : RunEvent
  | connectionClosed : RunEvent
deriving DecidableEq

/-- Model of `contextlib.AsyncExitStack`: a LIFO list of teardown
callbacks, represented by the events they emit; the head runs first on
exit. -/
structure ExitStack : Type where
  callbacks : List RunEvent

/-- Pushing a teardown callback (push_async_callback /
enter_async_context both register the teardown this way). -/
def ExitStack.push (st : ExitStack) (e : RunEvent) : ExitStack :=
  ⟨e :: st.callbacks⟩

/-- Model of `ServiceBuilder.build`: for every service in registry
iteration order, start it (resolve + advertise) and register its stop as
a teardown on the exit stack.  Returns the emitted start events and the
grown stack. -/
def buildServices : List String → ExitStack → List RunEvent × ExitStack
  | [], st => ([], st)
  | n :: rest, st =>
    let built := buildServices rest (st.push (RunEvent.serviceStopped n))
    (RunEvent.serviceStarted n :: built.1, built.2)

/-- Model of `ClientBuilder.run`: connect, push the connection close onto
the exit stack, build all services (each pushing its own teardown), wait
for the quit event, then unwind the stack (LIFO).  The value is the full
ordered event trace of the invocation. -/
def runTrace (serviceNames : List String) (servers : List (List Char)) : List RunEvent :=
  let st0 : ExitStack := ⟨[]⟩
  let st1 := st0.push RunEvent.connectionClosed
  let built := buildServices serviceNames st1
  RunEvent.connect servers :: (built.1 ++ (RunEvent.quitWait :: built.2.callbacks))

/-! ### Helper lemmas on the dict model -/

theorem dictGet_dictSet_self {α : Type} (m : List (String × α)) (k : String) (v : α) :
    dictGet (dictSet m k v) k = some v := by
  induction m with
  | nil => simp [dictGet, dictSet]
  | cons p rest ih =>
    obtain ⟨k2, v2⟩ := p
    by_cases hk : k2 = k <;> simp [dictGet, dictSet, hk, ih]

theorem dictGet_dictUpdate_self {α : Type} (m : List (String × α)) (k : String) (f : α → α) :
    dictGet (dictUpdate m k f) k = (dictGet m k).map f := by
  induction m with
  | nil => simp [dictGet, dictUpdate]
  | cons p rest ih =>
    obtain ⟨k2, v2⟩ := p
    by_cases hk : k2 = k <;> simp [dictGet, dictUpdate, hk, ih]

theorem dictCount_of_get_none {α : Type} (m : List (String × α)) (k : String)
    (h : dictGet m k = Option.none) : dictCount m k = 0 := by
  induction m with
  | nil => simp [dictCount]
  | cons p rest ih =>
    obtain ⟨k2, v2⟩ := p
    by_cases hk : k2 = k
    · simp [dictGet, hk] at h
    · simp [dictGet, hk] at h
      simpa [dictCount, hk] using ih h

theorem dictCount_dictSet_absent {α : Type} (m : List (String × α)) (k : String) (v : α)
    (h : dictGet m k = Option.none) : dictCount (dictSet m k v) k = 1 := by
  induction m with
  | nil => simp [dictCount, dictSet]
  | cons p rest ih =>
    obtain ⟨k2, v2⟩ := p
    by_cases hk : k2 = k
    · simp [dictGet, hk] at h
    · simp [dictGet, hk] at h
      simpa [dictCount, dictSet, hk] using ih h

theorem dictCount_dictUpdate {α : Type} (m : List (String × α)) (k k2 : String) (f : α → α) :
    dictCount (dictUpdate m k f) k2 = dictCount m k2 := by
  induction m with
  | nil => simp [dictUpdate]
  | cons p rest ih =>
    obtain ⟨k3, v3⟩ := p
    simp only [dictCount] at ih ⊢
    by_cases hk : k3 = k
    · subst hk
      by_cases hkk : k3 = k2 <;> simp [dictUpdate, List.filter_cons, hkk]
    · by_cases hkk : k3 = k2
      · subst hkk
        simp [dictUpdate, List.filter_cons, hk, ih]
      · simp [dictUpdate, List.filter_cons, hk, hkk, ih]

/-! ### Claim theorems -/

/-- C1: for a handler with exactly one remaining payload parameter (after
dropping the implicit receiver and a leading raw-request parameter), the
inbound payload is converted according to the parameter's declared type:
no declared type or the immutable byte-sequence type passes the bytes
unchanged; the mutable byte-sequence type passes a mutable copy of the
payload bytes; the text type passes the payload decoded as UTF-8, failing
with the payload-decoding error on invalid UTF-8; the associative type
passes the payload parsed as a JSON document, failing with the
payload-decoding error on malformed JSON. -/
theorem singleParamConversion (spec : ArgSpec) (a : String) (payload : Bytes)
    (h : remainingArgs spec = [a]) :
    ((getAnn spec a = Option.none ∨ getAnn spec a = some PyType.bytes) →
      convert_to_args spec payload =
        Except.ok ⟨specHasSelf spec, leadingArgs spec ++ [HandlerArg.bytes payload], []⟩)
    ∧ (getAnn spec a = some PyType.bytearray →
      convert_to_args spec payload =
        Except.ok ⟨specHasSelf spec, leadingArgs spec ++ [HandlerArg.bytearray payload], []⟩)
    ∧ (∀ s, getAnn spec a = some PyType.str → pyDecodeUtf8 payload = some s →
      convert_to_args spec payload =
        Except.ok ⟨specHasSelf spec, leadingArgs spec ++ [HandlerArg.str s], []⟩)
    ∧ (getAnn spec a = some PyType.str → pyDecodeUtf8 payload = Option.none →
      convert_to_args spec payload = Except.error DispatchError.payloadDecodingError)
    ∧ (∀ v, getAnn spec a = some PyType.dict → jsonLoads payload = some v →
      convert_to_args spec payload =
        Except.ok ⟨specHasSelf spec, leadingArgs spec ++ [HandlerArg.json v], []⟩)
    ∧ (getAnn spec a = some PyType.dict → jsonLoads payload = Option.none →
      convert_to_args spec payload = Except.error DispatchError.payloadDecodingError) := by
  refine ⟨?_, ?_, ?_, ?_, ?_, ?_⟩
  · rintro (h1 | h1) <;> simp [convert_to_args, h, h1]
  · intro h1; simp [convert_to_args, h, h1]
  · intro s h1 h2; simp [convert_to_args, h, h1, h2]
  · intro h1 h2; simp [convert_to_args, h, h1, h2]
  · intro v h1 h2; simp [convert_to_args, h, h1, h2]
  · intro h1 h2; simp [convert_to_args, h, h1, h2]

/-- Witness for C1: a text-typed single parameter receives the UTF-8
decoding of the payload, and an invalid UTF-8 payload fails with the
payload-decoding error. -/
theorem singleParamConversion_witness :
    convert_to_args ⟨["self", "msg"], [("msg", PyType.str)]⟩ (utf8Encode "world") =
      Except.ok ⟨true, [HandlerArg.str "world"], []⟩
    ∧ convert_to_args ⟨["self", "msg"], [("msg", PyType.str)]⟩ [255] =
      Except.error DispatchError.payloadDecodingError := by
  constructor
  · exact (singleParamConversion ⟨["self", "msg"], [("msg", PyType.str)]⟩ "msg"
      (utf8Encode "world") (by rfl)).2.2.1 "world" (by rfl) (by rfl)
  · exact (singleParamConversion ⟨["self", "msg"], [("msg", PyType.str)]⟩ "msg"
      [255] (by rfl)).2.2.2.1 (by rfl) (by rfl)

/-- C9: a single remaining payload parameter whose declared type is any
type other than the recognized byte-sequence, mutable-byte-sequence,
text, or associative types (a numeric type, a user-defined model class,
or even the request-handle type in non-leading position) matches none of
the dispatcher's conversion branches: the handler receives the raw
payload bytes unchanged. -/
theorem unrecognizedTypeRawPayload (spec : ArgSpec) (a : String) (payload : Bytes)
    (h : remainingArgs spec = [a]) :
    (∀ tn, getAnn spec a = some (PyType.other tn) →
      convert_to_args spec payload =
        Except.ok ⟨specHasSelf spec, leadingArgs spec ++ [HandlerArg.bytes payload], []⟩)
    ∧ (getAnn spec a = some PyType.request →
      convert_to_args spec payload =
        Except.ok ⟨specHasSelf spec, leadingArgs spec ++ [HandlerArg.bytes payload], []⟩) := by
  constructor
  · intro tn h1; simp [convert_to_args, h, h1]
  · intro h1; simp [convert_to_args, h, h1]

/-- Witness for C9: a parameter annotated with a numeric type receives
the raw payload bytes. -/
theorem unrecognizedTypeRawPayload_witness :
    convert_to_args ⟨["n"], [("n", PyType.other "int")]⟩ [7, 8, 9] =
      Except.ok ⟨false, [HandlerArg.bytes [7, 8, 9]], []⟩ :=
  (unrecognizedTypeRawPayload ⟨["n"], [("n", PyType.other "int")]⟩ "n"
    [7, 8, 9] (by rfl)).1 "int" (by rfl)

/-- C2: the handler's return value is converted to the outbound payload:
an empty/none result causes no response send at all; byte sequences
(mutable or not) are sent verbatim; text is UTF-8 encoded; an integer or
boolean scalar is stringified then UTF-8 encoded (returning 42 sends the
two bytes of "42"); any other (structured) value is serialized to JSON
text then UTF-8 encoded — in particular a returned one-field mapping
yields the UTF-8 bytes of its JSON serialization. -/
theorem resultConversion :
    convert_result PyValue.none = Except.ok Option.none
    ∧ (∀ bs, convert_result (PyValue.bytes bs) = Except.ok (some bs))
    ∧ (∀ bs, convert_result (PyValue.bytearray bs) = Except.ok (some bs))
    ∧ (∀ s, convert_result (PyValue.str s) = Except.ok (some (utf8Encode s)))
    ∧ (∀ n, convert_result (PyValue.int n) = Except.ok (some (utf8Encode (toString n))))
    ∧ (∀ b, convert_result (PyValue.bool b) =
        Except.ok (some (utf8Encode (if b then "True" else "False"))))
    ∧ convert_result (PyValue.int 42) = Except.ok (some [52, 50])
    ∧ convert_result (PyValue.dict [("result", PyValue.int 3)]) =
        Except.ok (some (utf8Encode "\x7b\"result\": 3\x7d"))
    ∧ (∀ xs s, jsonDumpsV (PyValue.list xs) = some s →
        convert_result (PyValue.list xs) = Except.ok (some (utf8Encode s)))
    ∧ (∀ fs s, jsonDumpsV (PyValue.dict fs) = some s →
        convert_result (PyValue.dict fs) = Except.ok (some (utf8Encode s))) := by
  refine ⟨rfl, fun bs => rfl, fun bs => rfl, fun s => rfl, fun n => rfl, fun b => rfl,
    rfl, rfl, ?_, ?_⟩
  · intro xs s h1; simp [convert_result, h1]
  · intro fs s h1; simp [convert_result, h1]

/-- Witness for C2: the structured-result branch applied to the concrete
one-field mapping produces the UTF-8 bytes of its JSON text. -/
theorem resultConversion_witness :
    convert_result (PyValue.dict [("result", PyValue.int 3)]) =
      Except.ok (some (utf8Encode "\x7b\"result\": 3\x7d")) :=
  resultConversion.2.2.2.2.2.2.2.2.2 [("result", PyValue.int 3)]
    "\x7b\"result\": 3\x7d" (by rfl)

/-- C3: for a handler with two or more remaining payload parameters, the
payload is parsed as a single JSON object and its top-level fields are
passed as the keyword arguments, with no proactive validation against
the parameter names: the concrete payload with fields a and b invokes
the two-parameter handler with those named arguments, and a payload
missing a required name still converts successfully (the mismatch only
surfaces when the call is made). -/
theorem multiParamKwargs (spec : ArgSpec) (payload : Bytes)
    (fields : List (String × JsonValue))
    (h1 : 2 ≤ (remainingArgs spec).length)
    (h2 : jsonLoads payload = some (JsonValue.obj fields)) :
    convert_to_args spec payload = Except.ok ⟨specHasSelf spec, leadingArgs spec, fields⟩
    ∧ convert_to_args ⟨["a", "b"], []⟩ (utf8Encode "\x7b\"a\":1,\"b\":2\x7d") =
        Except.ok ⟨false, [], [("a", JsonValue.num 1), ("b", JsonValue.num 2)]⟩
    ∧ convert_to_args ⟨["a", "b"], []⟩ (utf8Encode "\x7b\"a\":1\x7d") =
        Except.ok ⟨false, [], [("a", JsonValue.num 1)]⟩ := by
  refine ⟨?_, by rfl, by rfl⟩
  cases hr : remainingArgs spec with
  | nil => rw [hr] at h1; simp at h1
  | cons x t =>
    cases t with
    | nil => rw [hr] at h1; simp at h1
    | cons y t2 => simp [convert_to_args, hr, h2]

/-- Witness for C3: the concrete two-field JSON object payload converts
to the matching keyword arguments for a two-parameter handler. -/
theorem multiParamKwargs_witness :
    convert_to_args ⟨["a", "b"], []⟩ (utf8Encode "\x7b\"a\":1,\"b\":2\x7d") =
      Except.ok ⟨false, [], [("a", JsonValue.num 1), ("b", JsonValue.num 2)]⟩ :=
  (multiParamKwargs ⟨["a", "b"], []⟩ (utf8Encode "\x7b\"a\":1,\"b\":2\x7d")
    [("a", JsonValue.num 1), ("b", JsonValue.num 2)] (by decide) (by rfl)).1

/-- C4: service registration is idempotent with first-declaration-wins
semantics for the metadata: declaring a service under a fresh name
stores a definition carrying that declaration's version and description;
a second decorated declaration under the same name reuses the existing
definition — the registry still contains exactly one entry for the name,
whose version and description are the first declaration's values even
though the second declaration passed different ones. -/
theorem serviceRegistrationIdempotent
    (reg : ServiceRegistry) (name v1 d1 v2 d2 : String) (cls1 cls2 : PyClass)
    (h : get_service reg name = Option.none) :
    get_service (serviceDecl reg name v1 d1 cls1) name =
      some ⟨name, v1, d1, [], some cls1, Option.none⟩
    ∧ get_service (serviceDecl (serviceDecl reg name v1 d1 cls1) name v2 d2 cls2) name =
      some ⟨name, v1, d1, [], some cls2, Option.none⟩
    ∧ dictCount (serviceDecl (serviceDecl reg name v1 d1 cls1) name v2 d2 cls2).services
        name = 1 := by
  have hd : dictGet reg.services name = Option.none := h
  set reg1 := serviceDecl reg name v1 d1 cls1 with hreg1
  have h1 : get_service reg1 name = some ⟨name, v1, d1, [], some cls1, Option.none⟩ := by
    rw [hreg1]
    unfold serviceDecl service
    rw [h]
    simp only [set_current_service, add_service, ServiceDefinition.init, serviceDecorator,
      get_service, dictGet_dictUpdate_self, dictGet_dictSet_self]
    rfl
  have h1d : dictGet reg1.services name = some ⟨name, v1, d1, [], some cls1, Option.none⟩ := h1
  have hc1 : dictCount reg1.services name = 1 := by
    rw [hreg1]
    unfold serviceDecl service
    rw [h]
    simp only [set_current_service, add_service, ServiceDefinition.init, serviceDecorator]
    rw [dictCount_dictUpdate]
    exact dictCount_dictSet_absent reg.services name _ hd
  refine ⟨h1, ?_, ?_⟩
  · unfold serviceDecl service
    rw [h1]
    simp only [set_current_service, serviceDecorator, get_service, dictGet_dictUpdate_self,
      h1d]
    rfl
  · unfold serviceDecl service
    rw [h1]
    simp only [set_current_service, serviceDecorator]
    rw [dictCount_dictUpdate]
    exact hc1

/-- Witness for C4: declaring service X twice with different versions in
an empty registry leaves one entry whose version is the first
declaration's. -/
theorem serviceRegistrationIdempotent_witness :
    get_service (serviceDecl (serviceDecl ⟨[], Option.none⟩ "X" "1.0.0" "first" ⟨[]⟩)
        "X" "2.0.0" "second" ⟨[]⟩) "X" =
      some ⟨"X", "1.0.0", "first", [], some ⟨[]⟩, Option.none⟩
    ∧ dictCount (serviceDecl (serviceDecl ⟨[], Option.none⟩ "X" "1.0.0" "first" ⟨[]⟩)
        "X" "2.0.0" "second" ⟨[]⟩).services "X" = 1 :=
  ⟨(serviceRegistrationIdempotent ⟨[], Option.none⟩ "X" "1.0.0" "first" "2.0.0" "second"
      ⟨[]⟩ ⟨[]⟩ (by rfl)).2.1,
   (serviceRegistrationIdempotent ⟨[], Option.none⟩ "X" "1.0.0" "first" "2.0.0" "second"
      ⟨[]⟩ ⟨[]⟩ (by rfl)).2.2⟩

/-- C10: re-declaring a service under an existing name replaces only the
stored definition's implementing class with the newly decorated one,
while the definition's name, version, description, endpoints and
resolved instance remain exactly those of the stored definition, and the
number of registry entries for the name is unchanged. -/
theorem redeclareReplacesClass (reg : ServiceRegistry) (name v2 d2 : String)
    (cls2 : PyClass) (sd : ServiceDefinition)
    (h : get_service reg name = some sd) :
    get_service (serviceDecl reg name v2 d2 cls2) name =
      some { sd with service_cls := some cls2 }
    ∧ dictCount (serviceDecl reg name v2 d2 cls2).services name =
      dictCount reg.services name := by
  have hd : dictGet reg.services name = some sd := h
  constructor
  · unfold serviceDecl service
    rw [h]
    simp only [set_current_service, serviceDecorator, get_service, dictGet_dictUpdate_self,
      hd]
    rfl
  · unfold serviceDecl service
    rw [h]
    simp only [set_current_service, serviceDecorator]
    exact dictCount_dictUpdate reg.services name name _

/-- Witness for C10: redeclaring the service stored under X with a new
implementing class keeps its metadata and endpoints and swaps the
class. -/
theorem redeclareReplacesClass_witness :
    get_service (serviceDecl ⟨[("X", ⟨"X", "1.0.0", "first", [], some ⟨[]⟩, Option.none⟩)],
        some "X"⟩ "X" "9.9.9" "other" ⟨[("ready", PyValue.bool true)]⟩) "X" =
      some ⟨"X", "1.0.0", "first", [], some ⟨[("ready", PyValue.bool true)]⟩,
        Option.none⟩ :=
  (redeclareReplacesClass ⟨[("X", ⟨"X", "1.0.0", "first", [], some ⟨[]⟩, Option.none⟩)],
      some "X"⟩ "X" "9.9.9" "other" ⟨[("ready", PyValue.bool true)]⟩
      ⟨"X", "1.0.0", "first", [], some ⟨[]⟩, Option.none⟩ (by rfl)).1

/-- C5: declaring a second endpoint whose name already exists on the
current service fails with the duplicate-endpoint error at declaration
time: a first declaration under a fresh name succeeds and stores the
endpoint, and repeating the declaration with the same handler name on
the resulting registry returns the duplicate-endpoint error, leaving the
successful first registration in place. -/
theorem duplicateEndpointRejected (reg : ServiceRegistry) (svc fn : String)
    (sd : ServiceDefinition) (hl1 hl2 : Handler)
    (hc : reg.current_service = some svc)
    (hs : get_service reg svc = some sd)
    (hf : get_endpoint sd fn = Option.none) :
    ∃ reg1 : ServiceRegistry,
      endpointDecl reg Option.none fn (some hl1) = Except.ok reg1
      ∧ (∃ sd1, get_service reg1 svc = some sd1
          ∧ get_endpoint sd1 fn = some ⟨fn, hl1, hl1.spec⟩)
      ∧ endpointDecl reg1 Option.none fn (some hl2) =
          Except.error DeclError.duplicateEndpointError := by
  have hsd : dictGet reg.services svc = some sd := hs
  set ep1 : EndpointDefinition := ⟨fn, hl1, hl1.spec⟩ with hep1
  set sd1 : ServiceDefinition := { sd with endpoints := dictSet sd.endpoints fn ep1 } with hsd1
  set reg1 : ServiceRegistry := { reg with services := dictSet reg.services svc sd1 } with hreg1
  have hs1 : get_service reg1 svc = some sd1 := dictGet_dictSet_self reg.services svc sd1
  have he1 : get_endpoint sd1 fn = some ep1 := dictGet_dictSet_self sd.endpoints fn ep1
  have hc1 : reg1.current_service = some svc := hc
  refine ⟨reg1, ?_, ⟨sd1, hs1, he1⟩, ?_⟩
  · unfold endpointDecl
    simp only [hc, hs, hf, add_endpoint, mkEndpointDefinition, hreg1, hsd1, hep1]
  · unfold endpointDecl
    simp only [hc, hs1, he1]

/-- Witness for C5: on a one-service registry, declaring the endpoint
"foo" twice yields a successful first registration and the
duplicate-endpoint error on the second declaration. -/
theorem duplicateEndpointRejected_witness :
    ∃ reg1 : ServiceRegistry,
      endpointDecl ⟨[("X", ⟨"X", "1.0.0", "", [], Option.none, Option.none⟩)], some "X"⟩
          Option.none "foo"
          (some ⟨⟨["self"], []⟩, fun st _ _ => (st, PyValue.none)⟩) = Except.ok reg1
      ∧ (∃ sd1, get_service reg1 "X" = some sd1
          ∧ get_endpoint sd1 "foo" = some ⟨"foo",
              ⟨⟨["self"], []⟩, fun st _ _ => (st, PyValue.none)⟩, ⟨["self"], []⟩⟩)
      ∧ endpointDecl reg1 Option.none "foo"
          (some ⟨⟨["self"], []⟩, fun st _ _ => (st, PyValue.none)⟩) =
          Except.error DeclError.duplicateEndpointError :=
  duplicateEndpointRejected
    ⟨[("X", ⟨"X", "1.0.0", "", [], Option.none, Option.none⟩)], some "X"⟩ "X" "foo"
    ⟨"X", "1.0.0", "", [], Option.none, Option.none⟩
    ⟨⟨["self"], []⟩, fun st _ _ => (st, PyValue.none)⟩
    ⟨⟨["self"], []⟩, fun st _ _ => (st, PyValue.none)⟩
    (by rfl) (by rfl) (by rfl)

/-! ### Concrete counter service used by the singleton-lifecycle claim -/

/-- Handler of a counter endpoint: increments the counter attribute on
its bound instance and returns the new value (signature `(self)`; no
payload parameters). -/
def counterHandler : Handler :=
  ⟨⟨["self"], []⟩,
   fun st _ _ =>
     match dictGet st "_counter" with
     | some (PyValue.int n) =>
       (dictSet st "_counter" (PyValue.int (n + 1)), PyValue.int (n + 1))
     | _ => (st, PyValue.none)⟩

/-- Implementing class of the counter service: its zero-argument
constructor initializes the counter attribute to 0. -/
def counterClass : PyClass := ⟨[("_counter", PyValue.int 0)]⟩

/-- The declared counter endpoint. -/
def counterEndpoint : EndpointDefinition := ⟨"counter", counterHandler, counterHandler.spec⟩

/-- The declared counter service, before resolution. -/
def counterService : ServiceDefinition :=
  ⟨"sample", "1.0.0", "", [("counter", counterEndpoint)], some counterClass, Option.none⟩

/-- C6: the service singleton is created lazily and at most once —
resolving an already-resolved definition is a no-op that keeps the same
instance, resolving an unresolved definition constructs exactly the
instance the implementing class's zero-argument constructor produces and
caches it — and endpoint invocations run against this one shared
instance: on the concrete counter service, two sequential invocations of
the counter endpoint respond with the bytes of "1" and then of "2", the
cached instance carrying the mutation from one invocation to the next. -/
theorem singletonLifecycle :
    (∀ (sd : ServiceDefinition) (st : ObjState), sd.service_inst = some st →
      resolve_service sd = some sd)
    ∧ (∀ (sd : ServiceDefinition) (cls : PyClass), sd.service_inst = Option.none →
      sd.service_cls = some cls →
      resolve_service sd = some { sd with service_inst := some cls.init })
    ∧ (∃ sd1 sd2 sd3 : ServiceDefinition,
      resolve_service counterService = some sd1
      ∧ sd1.service_inst = some [("_counter", PyValue.int 0)]
      ∧ resolve_service sd1 = some sd1
      ∧ message_handler sd1 counterEndpoint [] = Except.ok (sd2, some [49])
      ∧ sd2.service_inst = some [("_counter", PyValue.int 1)]
      ∧ message_handler sd2 counterEndpoint [] = Except.ok (sd3, some [50])
      ∧ sd3.service_inst = some [("_counter", PyValue.int 2)]) := by
  refine ⟨?_, ?_, ?_⟩
  · intro sd st h
    simp [resolve_service, h]
  · intro sd cls h1 h2
    simp [resolve_service, h1, h2]
  · exact ⟨{ counterService with service_inst := some [("_counter", PyValue.int 0)] },
      { counterService with service_inst := some [("_counter", PyValue.int 1)] },
      { counterService with service_inst := some [("_counter", PyValue.int 2)] },
      rfl, rfl, rfl, rfl, rfl, rfl, rfl⟩

/-- Witness for C6: resolving twice on the concrete counter service is a
no-op the second time, and resolution caches the constructor's
instance. -/
theorem singletonLifecycle_witness :
    resolve_service { counterService with
        service_inst := some [("_counter", PyValue.int 0)] } =
      some { counterService with service_inst := some [("_counter", PyValue.int 0)] }
    ∧ resolve_service counterService =
      some { counterService with service_inst := some counterClass.init } :=
  ⟨singletonLifecycle.1 { counterService with
      service_inst := some [("_counter", PyValue.int 0)] }
      [("_counter", PyValue.int 0)] (by rfl),
   singletonLifecycle.2.1 counterService counterClass (by rfl) (by rfl)⟩

/-- Splitting a comma-free character list yields the one-element list. -/
theorem pySplitComma_no_comma (s : List Char) (h : ',' ∉ s) :
    pySplitComma s = [s] := by
  induction s with
  | nil => rfl
  | cons c rest ih =>
    have hc : c ≠ ',' := fun hcc => h (hcc ▸ List.mem_cons_self c rest)
    have hr : ',' ∉ rest := fun hm => h (List.mem_cons_of_mem c hm)
    simp [pySplitComma, hc, ih hr]

/-- Counterexample for C7: explicit empty input does NOT yield the
default local loopback address.  An empty string is stored as the
one-element list containing the empty address (Python "".split(",") is
[""]), and an empty list is stored as the empty list; neither equals the
default server list. -/
theorem serversEmptyInput_counterexample :
    clientBuilderServers (ServersArg.str "".data) = ["".data]
    ∧ clientBuilderServers (ServersArg.str "".data) ≠ defaultServers
    ∧ clientBuilderServers (ServersArg.list []) = []
    ∧ clientBuilderServers (ServersArg.list []) ≠ defaultServers := by
  refine ⟨by rfl, ?_, by rfl, ?_⟩ <;> decide

/-- C7 as amended: the stored server list is the single address for a
single (comma-free) address string, the split parts for a comma-separated
string, the explicit list unchanged for a list argument, and the single
default local loopback address only when the argument is omitted;
explicit empty input is NOT replaced by the default — an empty string
yields the one-element list holding the empty address and an empty list
stays empty. -/
theorem serversNormalization_amended (xs : List (List Char)) (s : List Char)
    (h : ',' ∉ s) :
    clientBuilderServers ServersArg.omitted = defaultServers
    ∧ clientBuilderServers (ServersArg.str s) = [s]
    ∧ clientBuilderServers (ServersArg.list xs) = xs
    ∧ clientBuilderServers (ServersArg.str "nats://h1:4222,nats://h2:4222".data) =
      ["nats://h1:4222".data, "nats://h2:4222".data]
    ∧ clientBuilderServers (ServersArg.str "".data) = ["".data]
    ∧ clientBuilderServers (ServersArg.list []) = [] := by
  refine ⟨rfl, ?_, rfl, by decide, rfl, rfl⟩
  exact pySplitComma_no_comma s h

/-- Witness for the amended C7: a concrete comma-free address string is
stored as a one-element list. -/
theorem serversNormalization_amended_witness :
    clientBuilderServers (ServersArg.str "nats://localhost:4222".data) =
      ["nats://localhost:4222".data] :=
  (serversNormalization_amended [] "nats://localhost:4222".data (by decide)).2.1

/-- Closed form of `buildServices`: the start events follow registry
order, and the teardown stack holds the service stops in reverse
declaration order on top of the previously pushed callbacks. -/
theorem buildServices_eq (names : List String) (st : ExitStack) :
    buildServices names st =
      (names.map RunEvent.serviceStarted,
       ⟨(names.map RunEvent.serviceStopped).reverse ++ st.callbacks⟩) := by
  induction names generalizing st with
  | nil => simp [buildServices]
  | cons n rest ih =>
    simp [buildServices, ih, ExitStack.push, List.reverse_cons, List.append_assoc]

/-- C8: on the exit path of `run` (after the shutdown signal fires), the
trace is the connect event, the service starts in registry order, the
quit wait, then the service teardowns in reverse order of acquisition,
and last the transport connection close — in particular every registered
service's teardown occurs strictly before the connection close is
invoked. -/
theorem shutdownOrdering (names : List String) (servers : List (List Char)) (n : String)
    (h : n ∈ names) :
    runTrace names servers =
      RunEvent.connect servers :: (names.map RunEvent.serviceStarted
        ++ RunEvent.quitWait :: ((names.map RunEvent.serviceStopped).reverse
          ++ [RunEvent.connectionClosed]))
    ∧ ∃ l1 l2, runTrace names servers =
        l1 ++ RunEvent.serviceStopped n :: (l2 ++ [RunEvent.connectionClosed]) := by
  have htr : runTrace names servers =
      RunEvent.connect servers :: (names.map RunEvent.serviceStarted
        ++ RunEvent.quitWait :: ((names.map RunEvent.serviceStopped).reverse
          ++ [RunEvent.connectionClosed])) := by
    simp only [runTrace, buildServices_eq, ExitStack.push]
  refine ⟨htr, ?_⟩
  have hmem : RunEvent.serviceStopped n ∈ (names.map RunEvent.serviceStopped).reverse := by
    simp only [List.mem_reverse]
    exact List.mem_map_of_mem RunEvent.serviceStopped h
  obtain ⟨l1, l2, hsplit⟩ := List.append_of_mem hmem
  refine ⟨RunEvent.connect servers :: (names.map RunEvent.serviceStarted
    ++ RunEvent.quitWait :: l1), l2, ?_⟩
  rw [htr, hsplit]
  simp [List.append_assoc]

/-- Witness for C8: with one registered service, its teardown precedes
the connection close in the run trace. -/
theorem shutdownOrdering_witness :
    runTrace ["sample"] [] =
      RunEvent.connect [] :: (["sample"].map RunEvent.serviceStarted
        ++ RunEvent.quitWait :: ((["sample"].map RunEvent.serviceStopped).reverse
          ++ [RunEvent.connectionClosed]))
    ∧ ∃ l1 l2, runTrace ["sample"] [] =
        l1 ++ RunEvent.serviceStopped "sample" :: (l2 ++ [RunEvent.connectionClosed]) :=
  shutdownOrdering ["sample"] [] "sample" (by decide)
